import Mathlib

/-!
Shallow embedding of the technical-indicator classification engine of
`update_notion_ma.py` (SMA calculator, slope classifier, stack classifier,
signal generator, stage classifier, and the Notion update payload builder),
together with theorems settling the specification claims.

Numbers are modelled as `ℚ`.  Python raises `ZeroDivisionError` on float
division by zero, so every division whose divisor can be zero at runtime is
routed through `pyDiv` in an `Except Unit` monad; a `.error ()` result models
the Python exception.  Divisions the source guards (the slope's
`ma_prev == 0` test) stay pure.
-/

namespace StockMA

/-- Computations that may raise Python's `ZeroDivisionError`. -/
abbrev Exc (α : Type) : Type := Except Unit α

/-- Python division `a / b`: raises `ZeroDivisionError` when `b = 0`. -/
def pyDiv (a b : ℚ) : Exc ℚ :=
  if b = 0 then Except.error () else Except.ok (a / b)

/-- Constant `NEAR_BAND = 0.01` (line 35). -/
def NEAR_BAND : ℚ := 1 / 100

/-- Constant `BREAK_BUF = 0.005` (line 36). -/
def BREAK_BUF : ℚ := 5 / 1000

/-- Constant `SLOPE_EPS = 0.001` (line 37). -/
def SLOPE_EPS : ℚ := 1 / 1000

/-- Constant `SLOPE_LOOKBACK = 5` (line 38). -/
def SLOPE_LOOKBACK : ℕ := 5

/-- Predicate `above(price, ma)` (lines 48-49): `ma is not None and price >= ma * (1 + BREAK_BUF)`.
No division, hence pure. -/
def above (price : ℚ) (ma : Option ℚ) : Bool :=
  match ma with
  | none => false
  | some m => decide (price ≥ m * (1 + BREAK_BUF))

/-- Predicate `below(price, ma)` (lines 52-53): `ma is not None and price <= ma * (1 - BREAK_BUF)`. -/
def below (price : ℚ) (ma : Option ℚ) : Bool :=
  match ma with
  | none => false
  | some m => decide (price ≤ m * (1 - BREAK_BUF))

/-- Predicate `near(price, ma)` (lines 56-57): `ma is not None and abs(price - ma) / ma <= NEAR_BAND`.
The `and` short-circuits, so the division only runs when `ma` is present; it
raises when the present `ma` is zero. -/
def near (price : ℚ) (ma : Option ℚ) : Exc Bool :=
  match ma with
  | none => Except.ok false
  | some m => do
    let q ← pyDiv |price - m| m
    return decide (q ≤ NEAR_BAND)

/-- Python slice `values[-window:]`; note `values[-0:]` is the whole list. -/
def pyLastSlice (values : List ℚ) (window : ℕ) : List ℚ :=
  if window = 0 then values else values.drop (values.length - window)

/-- Function `sma(values, window)` (lines 161-164).  Every call site passes a positive
`window` (20, 50 or 200), and all claims below assume `0 < window`; the
`window = 0` call, which Python would answer with a `ZeroDivisionError`,
is outside their scope, so the division by `window` is kept pure. -/
def sma (values : List ℚ) (window : ℕ) : Option ℚ :=
  if values.length < window then none
  else some ((pyLastSlice values window).sum / (window : ℚ))

/-- Python slice `values[:-k]`; note `values[:-0]` is the empty list. -/
def pyDropLast (values : List ℚ) (k : ℕ) : List ℚ :=
  if k = 0 then [] else values.take (values.length - k)

/-- Function `ma_slope(values, window, lookback)` (lines 167-184).  The division by
`ma_prev` is guarded by the source's `ma_prev == 0` test, hence pure. -/
def ma_slope (values : List ℚ) (window : ℕ) (lookback : ℕ) : String :=
  match sma values window with
  | none => "flat"
  | some ma_today =>
    if values.length < window + lookback then "flat"
    else
      match sma (pyDropLast values lookback) window with
      | none => "flat"
      | some ma_prev =>
        if ma_prev = 0 then "flat"
        else
          let change := (ma_today - ma_prev) / ma_prev
          if change > SLOPE_EPS then "up"
          else if change < -SLOPE_EPS then "down"
          else "flat"

/-- Flag `bull_stack` (line 330): `ma20 is not None and ma50 is not None and
ma200 is not None and ma20 > ma50 > ma200`. -/
def bull_stack (ma20 ma50 ma200 : Option ℚ) : Bool :=
  match ma20, ma50, ma200 with
  | some a, some b, some c => decide (a > b ∧ b > c)
  | _, _, _ => false

/-- Flag `bear_stack` (line 331): all present and `ma20 < ma50 < ma200`. -/
def bear_stack (ma20 ma50 ma200 : Option ℚ) : Bool :=
  match ma20, ma50, ma200 with
  | some a, some b, some c => decide (a < b ∧ b < c)
  | _, _, _ => false

/-- The golden/death-cross block of `calc_signals` (lines 212-217): both tags
require all four of `ma50, ma200, ma50_prev, ma200_prev` present. -/
def cross_block (ma50 ma200 ma50_prev ma200_prev : Option ℚ) : List String :=
  match ma50, ma200, ma50_prev, ma200_prev with
  | some m50, some m200, some m50p, some m200p =>
    (if m50p ≤ m200p ∧ m50 > m200 then ["MA50上穿MA200"] else []) ++
    (if m50p ≥ m200p ∧ m50 < m200 then ["MA50下穿MA200"] else [])
  | _, _, _, _ => []

/-- The early-momentum block of `calc_signals` (lines 219-222), appending the
momentum tag to the signals accumulated so far.  The division by `ma50` is
reached only after `slope20 in ("up", "flat") and price > ma20` held, as in
the source's short-circuiting `and`. -/
def momentum_block (price : ℚ) (ma20 ma50 : Option ℚ) (slope20 : String)
    (acc : List String) : Exc (List String) :=
  match ma20, ma50 with
  | some m20, some m50 =>
    if (slope20 = "up" ∨ slope20 = "flat") ∧ price > m20 then do
      let q ← pyDiv |price - m50| m50
      pure (if q ≤ 2 / 100 ∧ price < m50 * (1 + BREAK_BUF) then acc ++ ["启动迹象"] else acc)
    else pure acc
  | _, _ => pure acc

/-- Function `calc_signals` (lines 187-224).  The list is built in the source's append
order; the two `near` calls and the early-momentum division may raise. -/
def calc_signals (price : ℚ) (ma20 ma50 ma200 ma50_prev ma200_prev : Option ℚ)
    (slopes : String × String × String) (stks : Bool × Bool) : Exc (List String) := do
  let (bull, bear) := stks
  let (slope20, _slope50, _slope200) := slopes
  let s1 := (if bull then ["多头排列"] else []) ++ (if bear then ["空头排列"] else [])
  let s2 := s1 ++ (if above price ma50 then ["站上MA50"] else [])
    ++ (if below price ma50 then ["跌破MA50"] else [])
    ++ (if above price ma200 then ["站上MA200"] else [])
    ++ (if below price ma200 then ["跌破MA200"] else [])
  let n20 ← near price ma20
  let n50 ← near price ma50
  let s3 := s2 ++ (if n20 then ["回踩MA20"] else []) ++ (if n50 then ["回踩MA50"] else [])
  let s4 := s3 ++ cross_block ma50 ma200 ma50_prev ma200_prev
  momentum_block price ma20 ma50 slope20 s4

/-- Rule 2 test of `calc_stage` (line 239): `ma50 is not None and
price >= ma50 and near(price, ma50) and ("站上MA50" in signals)`, with the
source's short-circuiting (the `near` division runs only once the first two
conjuncts held). -/
def stage_rule2 (price : ℚ) (ma50 : Option ℚ) (signals : List String) : Exc Bool :=
  match ma50 with
  | some m50 =>
    if price ≥ m50 then do
      let n ← near price (some m50)
      pure (n && decide ("站上MA50" ∈ signals))
    else pure false
  | none => pure false

/-- Rule 5 test of `calc_stage` (lines 251-252): both MAs present,
`price > ma20 and slope20 in ("up", "flat") and abs(price - ma50) / ma50
<= 0.02 and price < ma50 * (1 + BREAK_BUF)`, dividing only after the first
two conjuncts held. -/
def stage_rule5 (price : ℚ) (ma20 ma50 : Option ℚ) (slope20 : String) : Exc Bool :=
  match ma20, ma50 with
  | some m20, some m50 =>
    if price > m20 ∧ (slope20 = "up" ∨ slope20 = "flat") then do
      let q ← pyDiv |price - m50| m50
      pure (decide (q ≤ 2 / 100) && decide (price < m50 * (1 + BREAK_BUF)))
    else pure false
  | _, _ => pure false

/-- Rule 6 test of `calc_stage` (line 256): `ma50 is not None and
abs(price - ma50) / ma50 <= 0.02`. -/
def stage_rule6 (price : ℚ) (ma50 : Option ℚ) : Exc Bool :=
  match ma50 with
  | some m50 => do
    let q ← pyDiv |price - m50| m50
    pure (decide (q ≤ 2 / 100))
  | none => pure false

/-- Function `calc_stage` (lines 227-272): the nine-rule priority chain with the
`"震荡"` fallback.  Each Python `return` becomes an early `return`; the
divisions of rules 2, 5 and 6 (all by `ma50`) go through `near`/`pyDiv`
exactly where the source's short-circuiting reaches them. -/
def calc_stage (price : ℚ) (ma20 ma50 ma200 : Option ℚ)
    (slopes : String × String × String) (stks : Bool × Bool) (signals : List String) :
    Exc String :=
  let (bull, bear) := stks
  let (slope20, slope50, _slope200) := slopes
  -- 1) 右侧上行
  if bull && ma20.any (fun m => decide (price > m)) && decide (slope50 ≠ "down") then
    Except.ok "右侧上行"
  else
    stage_rule2 price ma50 signals >>= fun r2 =>
    -- 2) 突破回踩
    if r2 then Except.ok "突破回踩"
    -- 3) 突破MA200
    else if ma200.isSome && above price ma200 then Except.ok "突破MA200"
    -- 4) 突破MA50
    else if ma50.isSome && above price ma50 then Except.ok "突破MA50"
    else
      stage_rule5 price ma20 ma50 slope20 >>= fun r5 =>
      -- 5) 准备启动
      if r5 then Except.ok "准备启动"
      else
        stage_rule6 price ma50 >>= fun r6 =>
        -- 6) 震荡
        if r6 then Except.ok "震荡"
        -- 7) 承压反弹
        else if (match ma20, ma50 with
            | some m20, some m50 => decide (price < m50) && decide (price > m20)
            | _, _ => false) then Except.ok "承压反弹"
        -- 8) 跌破MA200
        else if ma200.isSome && below price ma200 then Except.ok "跌破MA200"
        -- 9) 左侧下行
        else if bear && ma20.any (fun m => decide (price < m)) then Except.ok "左侧下行"
        else Except.ok "震荡"

/-- The engine's output per ticker (spec §3 `ClassificationResult`, minus the
date, which the core only forwards). -/
structure ClassificationResult where
  lastClose : ℚ
  ma20 : Option ℚ
  ma50 : Option ℚ
  ma200 : Option ℚ
  stage : String
  signals : List String
deriving DecidableEq

/-- The per-ticker computation of `main` (lines 316-343) on one series of
closes: `none` when the series is empty (`main` skips such tickers before
reading `closes[-1]`). -/
def processSeries (values : List ℚ) : Option (Exc ClassificationResult) :=
  match values.getLast? with
  | none => none
  | some last_close =>
    let ma20 := sma values 20
    let ma50 := sma values 50
    let ma200 := sma values 200
    let ma50_prev := sma (pyDropLast values 1) 50
    let ma200_prev := sma (pyDropLast values 1) 200
    let slope20 := ma_slope values 20 SLOPE_LOOKBACK
    let slope50 := ma_slope values 50 SLOPE_LOOKBACK
    let slope200 := ma_slope values 200 SLOPE_LOOKBACK
    let bs := bull_stack ma20 ma50 ma200
    let brs := bear_stack ma20 ma50 ma200
    some (do
      let signals ← calc_signals last_close ma20 ma50 ma200 ma50_prev ma200_prev
        (slope20, slope50, slope200) (bs, brs)
      let stage ← calc_stage last_close ma20 ma50 ma200
        (slope20, slope50, slope200) (bs, brs) signals
      return { lastClose := last_close, ma20 := ma20, ma50 := ma50, ma200 := ma200,
               stage := stage, signals := signals })

/-- Notion property payload values (the JSON fragments of lines 279-289). -/
inductive NotionValue where
  | number : ℚ → NotionValue
  | dateStart : String → NotionValue
  | sel : String → NotionValue
  | multiSel : List String → NotionValue
deriving DecidableEq

/-- Field name `PRICE_PROP` (line 25). -/
def PRICE_PROP : String := "价格"

/-- Field name `PRICE_TIME_PROP` (line 24). -/
def PRICE_TIME_PROP : String := "价格更新时间"

/-- Field name `MA20_PROP` (line 26). -/
def MA20_PROP : String := "MA20"

/-- Field name `MA50_PROP` (line 27). -/
def MA50_PROP : String := "MA50"

/-- Field name `MA200_PROP` (line 28). -/
def MA200_PROP : String := "MA200"

/-- Field name `STAGE_PROP` (line 31). -/
def STAGE_PROP : String := "阶段"

/-- Field name `SIGNALS_PROP` (line 32). -/
def SIGNALS_PROP : String := "触发信号"

/-- Round half to even at integer precision (Python's `round` tie rule). -/
def roundHalfEven (x : ℚ) : ℤ :=
  let f := ⌊x⌋
  if x - f < 1 / 2 then f
  else if x - f > 1 / 2 then f + 1
  else if f % 2 = 0 then f else f + 1

/-- Function `round(x, 2)` of Python, idealized over `ℚ` (half-to-even at two decimals). -/
def py_round2 (x : ℚ) : ℚ := (roundHalfEven (x * 100) : ℚ) / 100

/-- The `properties` map built by `notion_update_page` (lines 278-291), as an
association list in insertion order: the four unconditional fields, then one
`MA` entry per present SMA. -/
def notion_update_props (price : ℚ) (date_str : String) (ma20 ma50 ma200 : Option ℚ)
    (stage : String) (signals : List String) : List (String × NotionValue) :=
  [(PRICE_PROP, NotionValue.number (py_round2 price)),
   (PRICE_TIME_PROP, NotionValue.dateStart date_str),
   (STAGE_PROP, NotionValue.sel stage),
   (SIGNALS_PROP, NotionValue.multiSel signals)]
  ++ (match ma20 with
      | some v => [(MA20_PROP, NotionValue.number (py_round2 v))]
      | none => [])
  ++ (match ma50 with
      | some v => [(MA50_PROP, NotionValue.number (py_round2 v))]
      | none => [])
  ++ (match ma200 with
      | some v => [(MA200_PROP, NotionValue.number (py_round2 v))]
      | none => [])

/-- The nine stage labels of §4.5, in rule order (`"震荡"` is both rule 6 and
the fallback). -/
def nineStages : List String :=
  ["右侧上行", "突破回踩", "突破MA200", "突破MA50", "准备启动",
   "震荡", "承压反弹", "跌破MA200", "左侧下行"]

/-- First-match evaluation of an ordered (condition, label) rule table with a
default label — §4.5's "return the first matching rule; if none match,
default to Consolidation". -/
def firstMatch : List (Bool × String) → String → String
  | [], d => d
  | (c, l) :: rest, d => if c then l else firstMatch rest d

/-- Spec section 4.4's `near` predicate, written from the spec's words as a total
function on `ℚ` (the spec's mathematical reading has no fault case):
`ma` present and `|price - ma| / ma ≤ nearBand`. -/
def nearSpec (price : ℚ) (ma : Option ℚ) : Bool :=
  match ma with
  | none => false
  | some m => decide (|price - m| / m ≤ NEAR_BAND)

/-- Spec section 4.5 rule 5 (PreparingLaunch), written from the spec's words as a total
predicate on `ℚ`: `ma20, ma50` present, `price > ma20`,
`slope20 ∈ {up, flat}`, `|price - ma50|/ma50 ≤ 0.02`,
`price < ma50 × (1 + breakBuf)`. -/
def spec_rule5 (price : ℚ) (ma20 ma50 : Option ℚ) (slope20 : String) : Bool :=
  match ma20, ma50 with
  | some m20, some m50 =>
    decide (price > m20) && decide (slope20 = "up" ∨ slope20 = "flat") &&
      decide (|price - m50| / m50 ≤ 2 / 100) && decide (price < m50 * (1 + BREAK_BUF))
  | _, _ => false

/-- Spec section 4.5's stage classifier, written from the spec's words: the nine rules as
an ordered priority table evaluated by first match, defaulting to the
Consolidation label.  `above`/`below` are division-free, so the code's
versions already are the spec's. -/
def stageSpec (price : ℚ) (ma20 ma50 ma200 : Option ℚ)
    (slopes : String × String × String) (stks : Bool × Bool) (signals : List String) :
    String :=
  let (bull, bear) := stks
  let (slope20, slope50, _slope200) := slopes
  firstMatch
    [(bull && ma20.any (fun m => decide (price > m)) && decide (slope50 ≠ "down"),
      "右侧上行"),
     (ma50.any (fun m => decide (price ≥ m)) && nearSpec price ma50 &&
        decide ("站上MA50" ∈ signals),
      "突破回踩"),
     (ma200.isSome && above price ma200, "突破MA200"),
     (ma50.isSome && above price ma50, "突破MA50"),
     (spec_rule5 price ma20 ma50 slope20, "准备启动"),
     (ma50.any (fun m50 => decide (|price - m50| / m50 ≤ 2 / 100)), "震荡"),
     ((match ma20, ma50 with
       | some m20, some m50 => decide (price < m50) && decide (price > m20)
       | _, _ => false),
      "承压反弹"),
     (ma200.isSome && below price ma200, "跌破MA200"),
     (bear && ma20.any (fun m => decide (price < m)), "左侧下行")]
    "震荡"

/-! ### Helper lemmas -/

theorem mem_ite_singleton {c : Prop} [Decidable c] {a t : String} :
    (a ∈ if c then [t] else ([] : List String)) ↔ c ∧ a = t := by
  split <;> simp_all

theorem sma_replicate {n w : ℕ} (c : ℚ) (h0 : 0 < w) (h : w ≤ n) :
    sma (List.replicate n c) w = some c := by
  have hw0 : w ≠ 0 := by omega
  have h1 : ¬ ((List.replicate n c).length < w) := by
    simp only [List.length_replicate]; omega
  have h2 : pyLastSlice (List.replicate n c) w = List.replicate w c := by
    simp only [pyLastSlice, hw0, if_false, List.length_replicate, List.drop_replicate]
    congr 1
    omega
  unfold sma
  rw [if_neg h1, h2]
  have h3 : ((w : ℚ) * c) / w = c := mul_div_cancel_left₀ c (Nat.cast_ne_zero.mpr hw0)
  simp [List.sum_replicate, nsmul_eq_mul, h3]

theorem sma_none_of_short {values : List ℚ} {w : ℕ} (h : values.length < w) :
    sma values w = none := by
  unfold sma
  rw [if_pos h]

theorem ma_slope_replicate {n w l : ℕ} (c : ℚ) (h0 : 0 < w) :
    ma_slope (List.replicate n c) w l = "flat" := by
  by_cases hn : n < w
  · have ht : sma (List.replicate n c) w = none :=
      sma_none_of_short (by simpa using hn)
    simp [ma_slope, ht]
  · push_neg at hn
    have ht : sma (List.replicate n c) w = some c := sma_replicate c h0 hn
    by_cases hlen : n < w + l
    · simp [ma_slope, ht, hlen]
    · push_neg at hlen
      rcases Nat.eq_zero_or_pos l with hl | hl
      · subst hl
        have hprev : sma (pyDropLast (List.replicate n c) 0) w = none := by
          have : pyDropLast (List.replicate n c) 0 = [] := by simp [pyDropLast]
          rw [this]
          exact sma_none_of_short (by simpa using h0)
        simp [ma_slope, ht, hprev]
      · have hpd : pyDropLast (List.replicate n c) l = List.replicate (n - l) c := by
          have hl0 : l ≠ 0 := by omega
          simp only [pyDropLast, hl0, if_false, List.length_replicate, List.take_replicate]
          congr 1
          omega
        have hprev : sma (pyDropLast (List.replicate n c) l) w = some c := by
          rw [hpd]
          exact sma_replicate c h0 (by omega)
        by_cases hc : c = 0
        · subst hc
          simp [ma_slope, ht, hprev, hlen]
        · have hlen2 : ¬ ((List.replicate n c).length < w + l) := by
            simp only [List.length_replicate]; omega
          simp only [ma_slope, ht, hprev, hlen2, if_false, hc, sub_self, zero_div]
          norm_num [SLOPE_EPS]

theorem stack_flags (x y z : Option ℚ) :
    (¬ (bull_stack x y z = true ∧ bear_stack x y z = true)) ∧
    ((x = none ∨ y = none ∨ z = none) →
      bull_stack x y z = false ∧ bear_stack x y z = false) ∧
    (∀ a b c, x = some a → y = some b → z = some c →
      ¬ (a > b ∧ b > c) → ¬ (a < b ∧ b < c) →
      bull_stack x y z = false ∧ bear_stack x y z = false) := by
  refine ⟨?_, ?_, ?_⟩
  · rintro ⟨hb, hr⟩
    rcases x with _ | a <;> rcases y with _ | b <;> rcases z with _ | c <;>
      simp [bull_stack, bear_stack] at hb hr
    linarith [hb.1, hr.1]
  · intro hnone
    rcases x with _ | a <;> rcases y with _ | b <;> rcases z with _ | c <;>
      simp_all [bull_stack, bear_stack]
  · intro a b c hx hy hz hgt hlt
    rcases x with _ | a0 <;> rcases y with _ | b0 <;> rcases z with _ | c0 <;>
      simp_all [bull_stack, bear_stack]

/-! ### Claims -/

/-- C1: for every list of close values and positive window, `sma` is absent
when the series is shorter than the window, and otherwise is the arithmetic
mean of exactly the last `window` elements, with no error even when `window`
exceeds the series length. -/
theorem claim_C1 (values : List ℚ) (window : ℕ) (hw : 0 < window) :
    (values.length < window → sma values window = none) ∧
    (window ≤ values.length →
      ∃ init tail, values = init ++ tail ∧ tail.length = window ∧
        sma values window = some (tail.sum / (window : ℚ))) := by
  constructor
  · exact fun h => sma_none_of_short h
  · intro h
    refine ⟨values.take (values.length - window), values.drop (values.length - window),
      (values.take_append_drop _).symm, ?_, ?_⟩
    · rw [List.length_drop]
      omega
    · have h1 : ¬ (values.length < window) := by omega
      have hw0 : window ≠ 0 := by omega
      unfold sma pyLastSlice
      rw [if_neg h1, if_neg hw0]

theorem claim_C1_witness :
    0 < 2 ∧ ∃ init tail, ([1, 2, 3] : List ℚ) = init ++ tail ∧ tail.length = 2 ∧
      sma [1, 2, 3] 2 = some (tail.sum / (2 : ℚ)) :=
  ⟨by decide, (claim_C1 [1, 2, 3] 2 (by decide)).2 (by decide)⟩

/-- C3: for every price series, the `bullStack`/`bearStack` flags computed in
`main` (lines 330-331) are never both true, and both are false when any of
the three SMAs is absent or the averages are not strictly ordered either
way. -/
theorem claim_C3 (values : List ℚ) :
    (¬ (bull_stack (sma values 20) (sma values 50) (sma values 200) = true ∧
        bear_stack (sma values 20) (sma values 50) (sma values 200) = true)) ∧
    ((sma values 20 = none ∨ sma values 50 = none ∨ sma values 200 = none) →
      bull_stack (sma values 20) (sma values 50) (sma values 200) = false ∧
      bear_stack (sma values 20) (sma values 50) (sma values 200) = false) ∧
    (∀ a b c, sma values 20 = some a → sma values 50 = some b → sma values 200 = some c →
      ¬ (a > b ∧ b > c) → ¬ (a < b ∧ b < c) →
      bull_stack (sma values 20) (sma values 50) (sma values 200) = false ∧
      bear_stack (sma values 20) (sma values 50) (sma values 200) = false) :=
  stack_flags (sma values 20) (sma values 50) (sma values 200)

theorem claim_C3_witness :
    bull_stack (sma [] 20) (sma [] 50) (sma [] 200) = false ∧
    bear_stack (sma [] 20) (sma [] 50) (sma [] 200) = false :=
  (claim_C3 []).2.1 (Or.inl (by rfl))

/-- C5: the spec's §7 contract says the engine never raises on well-typed
numeric input, even when a present moving average equals zero, substituting
neutral defaults instead.  The code violates this: `near` divides by the
moving average without a zero guard, so a present `ma20 = 0` (e.g. from a
series of ≥ 20 all-zero closes) raises `ZeroDivisionError` inside the signal
generator.  This theorem evaluates the code at that failing input. -/
theorem claim_C5_zero_ma_raises :
    calc_signals 100 (some 0) none none none none ("flat", "flat", "flat") (false, false) =
      Except.error () := rfl

/-- C2 counterexample: at `price = 1`, `ma50 = 0` present and everything else
absent, the stage classifier raises (`near`'s division by `ma50`), so it does
not return any label — refuting "the result is never absent" as universally
stated. -/
theorem claim_C2_counterexample :
    calc_stage 1 none (some 0) none ("flat", "flat", "flat") (false, false) [] =
      Except.error () := rfl

/-- C9: the Notion update payload (lines 278-289) contains an MA-w field
exactly when the corresponding SMA is present (absent SMAs are omitted, not
written as null/zero), while price, date, stage and signals are always
written. -/
theorem claim_C9 (price : ℚ) (date_str : String) (ma20 ma50 ma200 : Option ℚ)
    (stage : String) (signals : List String) :
    (MA20_PROP ∈ (notion_update_props price date_str ma20 ma50 ma200 stage signals).map Prod.fst
        ↔ ma20 ≠ none) ∧
    (MA50_PROP ∈ (notion_update_props price date_str ma20 ma50 ma200 stage signals).map Prod.fst
        ↔ ma50 ≠ none) ∧
    (MA200_PROP ∈ (notion_update_props price date_str ma20 ma50 ma200 stage signals).map Prod.fst
        ↔ ma200 ≠ none) ∧
    PRICE_PROP ∈ (notion_update_props price date_str ma20 ma50 ma200 stage signals).map Prod.fst ∧
    PRICE_TIME_PROP ∈
      (notion_update_props price date_str ma20 ma50 ma200 stage signals).map Prod.fst ∧
    STAGE_PROP ∈ (notion_update_props price date_str ma20 ma50 ma200 stage signals).map Prod.fst ∧
    SIGNALS_PROP ∈
      (notion_update_props price date_str ma20 ma50 ma200 stage signals).map Prod.fst := by
  rcases ma20 with _ | v20 <;> rcases ma50 with _ | v50 <;> rcases ma200 with _ | v200 <;>
    simp [notion_update_props, PRICE_PROP, PRICE_TIME_PROP, STAGE_PROP, SIGNALS_PROP,
      MA20_PROP, MA50_PROP, MA200_PROP]

theorem exc_bind_ok {α β : Type} (a : α) (f : α → Exc β) :
    (Except.ok a : Exc α) >>= f = f a := rfl

theorem exc_bind_error {α β : Type} (f : α → Exc β) :
    (Except.error () : Exc α) >>= f = Except.error () := rfl

theorem exc_pure {α : Type} (a : α) : (pure a : Exc α) = Except.ok a := rfl

/-- C7: every series of length 10 (shorter than every window) yields three
absent SMAs, an empty signal set and the Consolidation fallback stage, with
no error raised anywhere in the per-ticker pipeline. -/
theorem claim_C7 (values : List ℚ) (h : values.length = 10) :
    sma values 20 = none ∧ sma values 50 = none ∧ sma values 200 = none ∧
    ∃ lc, processSeries values =
      some (Except.ok ⟨lc, none, none, none, "震荡", []⟩) := by
  have h20 : sma values 20 = none := sma_none_of_short (by omega)
  have h50 : sma values 50 = none := sma_none_of_short (by omega)
  have h200 : sma values 200 = none := sma_none_of_short (by omega)
  have hne : values ≠ [] := by
    intro e
    rw [e] at h
    simp at h
  obtain ⟨lc, hlc⟩ : ∃ lc, values.getLast? = some lc := by
    cases e : values.getLast? with
    | none => exact absurd (List.getLast?_eq_none_iff.mp e) hne
    | some lc => exact ⟨lc, rfl⟩
  have hp50 : sma (pyDropLast values 1) 50 = none := by
    apply sma_none_of_short
    simp [pyDropLast, h]
  have hp200 : sma (pyDropLast values 1) 200 = none := by
    apply sma_none_of_short
    simp [pyDropLast, h]
  have hs20 : ma_slope values 20 SLOPE_LOOKBACK = "flat" := by simp [ma_slope, h20]
  have hs50 : ma_slope values 50 SLOPE_LOOKBACK = "flat" := by simp [ma_slope, h50]
  have hs200 : ma_slope values 200 SLOPE_LOOKBACK = "flat" := by simp [ma_slope, h200]
  refine ⟨h20, h50, h200, lc, ?_⟩
  simp only [processSeries, hlc, h20, h50, h200, hp50, hp200, hs20, hs50, hs200]
  rfl

theorem claim_C7_witness :
    (List.replicate 10 (1 : ℚ)).length = 10 ∧
    (sma (List.replicate 10 (1 : ℚ)) 20 = none ∧
     sma (List.replicate 10 (1 : ℚ)) 50 = none ∧
     sma (List.replicate 10 (1 : ℚ)) 200 = none ∧
     ∃ lc, processSeries (List.replicate 10 (1 : ℚ)) =
       some (Except.ok ⟨lc, none, none, none, "震荡", []⟩)) :=
  ⟨by decide, claim_C7 (List.replicate 10 1) (by decide)⟩

/-- C8: a flat series of 250 closes equal to 100 gives all three SMAs = 100,
all three slopes flat, `near(price, ma50)` true, and the Consolidation stage
(the pipeline also emits the two pullback signals, and no error). -/
theorem claim_C8 :
    sma (List.replicate 250 (100 : ℚ)) 20 = some 100 ∧
    sma (List.replicate 250 (100 : ℚ)) 50 = some 100 ∧
    sma (List.replicate 250 (100 : ℚ)) 200 = some 100 ∧
    ma_slope (List.replicate 250 (100 : ℚ)) 20 SLOPE_LOOKBACK = "flat" ∧
    ma_slope (List.replicate 250 (100 : ℚ)) 50 SLOPE_LOOKBACK = "flat" ∧
    ma_slope (List.replicate 250 (100 : ℚ)) 200 SLOPE_LOOKBACK = "flat" ∧
    near 100 (sma (List.replicate 250 (100 : ℚ)) 50) = Except.ok true ∧
    processSeries (List.replicate 250 (100 : ℚ)) =
      some (Except.ok ⟨100, some 100, some 100, some 100, "震荡", ["回踩MA20", "回踩MA50"]⟩) := by
  have h20 : sma (List.replicate 250 (100 : ℚ)) 20 = some 100 :=
    sma_replicate _ (by omega) (by omega)
  have h50 : sma (List.replicate 250 (100 : ℚ)) 50 = some 100 :=
    sma_replicate _ (by omega) (by omega)
  have h200 : sma (List.replicate 250 (100 : ℚ)) 200 = some 100 :=
    sma_replicate _ (by omega) (by omega)
  have hnear : near 100 (some (100 : ℚ)) = Except.ok true := by
    norm_num [near, pyDiv, NEAR_BAND]
  have hs20 : ma_slope (List.replicate 250 (100 : ℚ)) 20 SLOPE_LOOKBACK = "flat" :=
    ma_slope_replicate _ (by omega)
  have hs50 : ma_slope (List.replicate 250 (100 : ℚ)) 50 SLOPE_LOOKBACK = "flat" :=
    ma_slope_replicate _ (by omega)
  have hs200 : ma_slope (List.replicate 250 (100 : ℚ)) 200 SLOPE_LOOKBACK = "flat" :=
    ma_slope_replicate _ (by omega)
  have hlast : (List.replicate 250 (100 : ℚ)).getLast? = some 100 := by
    rw [show (250 : ℕ) = 249 + 1 from rfl, List.replicate_succ', List.getLast?_concat]
  have hpd : pyDropLast (List.replicate 250 (100 : ℚ)) 1 = List.replicate 249 (100 : ℚ) := by
    simp only [pyDropLast, if_neg (by omega : ¬ (1 : ℕ) = 0), List.length_replicate,
      List.take_replicate]
    congr 1
  have hprev50 : sma (pyDropLast (List.replicate 250 (100 : ℚ)) 1) 50 = some 100 := by
    rw [hpd]
    exact sma_replicate _ (by omega) (by omega)
  have hprev200 : sma (pyDropLast (List.replicate 250 (100 : ℚ)) 1) 200 = some 100 := by
    rw [hpd]
    exact sma_replicate _ (by omega) (by omega)
  have hbull : bull_stack (some (100 : ℚ)) (some 100) (some 100) = false := by
    simp [bull_stack]
  have hbear : bear_stack (some (100 : ℚ)) (some 100) (some 100) = false := by
    simp [bear_stack]
  have habove : above 100 (some (100 : ℚ)) = false := by norm_num [above, BREAK_BUF]
  have hbelow : below 100 (some (100 : ℚ)) = false := by norm_num [below, BREAK_BUF]
  have hdiv : pyDiv (0 : ℚ) 100 = Except.ok 0 := by norm_num [pyDiv]
  have hmem : ("站上MA50" ∈ ["回踩MA20", "回踩MA50"]) = False := by simp
  have hsig : calc_signals 100 (some 100) (some 100) (some 100) (some 100) (some 100)
      ("flat", "flat", "flat") (false, false) = Except.ok ["回踩MA20", "回踩MA50"] := by
    norm_num [calc_signals, cross_block, momentum_block, hnear, habove, hbelow,
      exc_bind_ok, exc_pure]
  have hstage : calc_stage 100 (some 100) (some 100) (some 100) ("flat", "flat", "flat")
      (false, false) ["回踩MA20", "回踩MA50"] = Except.ok "震荡" := by
    norm_num [calc_stage, stage_rule2, stage_rule5, stage_rule6, hnear, habove, hbelow,
      hmem, hdiv, exc_bind_ok, exc_pure, NEAR_BAND]
  refine ⟨h20, h50, h200, hs20, hs50, hs200, by rw [h50]; exact hnear, ?_⟩
  simp only [processSeries, hlast, h20, h50, h200, hprev50, hprev200, hs20, hs50, hs200,
    hbull, hbear, hsig, exc_bind_ok, hstage, exc_pure]

theorem momentum_block_ok {price : ℚ} {ma20 ma50 : Option ℚ} {slope20 : String}
    {acc sigs : List String}
    (h : momentum_block price ma20 ma50 slope20 acc = Except.ok sigs) :
    sigs = acc ∨ sigs = acc ++ ["启动迹象"] := by
  rcases ma20 with _ | m20
  · simp only [momentum_block, exc_pure, Except.ok.injEq] at h
    exact Or.inl h.symm
  rcases ma50 with _ | m50
  · simp only [momentum_block, exc_pure, Except.ok.injEq] at h
    exact Or.inl h.symm
  · simp only [momentum_block] at h
    split at h
    · rcases e : pyDiv |price - m50| m50 with u | q
      · rw [e, exc_bind_error] at h
        exact Except.noConfusion h
      · rw [e, exc_bind_ok] at h
        simp only [exc_pure, Except.ok.injEq] at h
        split at h
        · exact Or.inr h.symm
        · exact Or.inl h.symm
    · simp only [exc_pure, Except.ok.injEq] at h
      exact Or.inl h.symm

theorem cross_block_not_both (ma50 ma200 m50p m200p : Option ℚ) :
    ¬ ("MA50上穿MA200" ∈ cross_block ma50 ma200 m50p m200p ∧
       "MA50下穿MA200" ∈ cross_block ma50 ma200 m50p m200p) := by
  rcases ma50 with _ | a <;> rcases ma200 with _ | b <;> rcases m50p with _ | c <;>
    rcases m200p with _ | d <;>
      simp [cross_block, mem_ite_singleton]
  intros
  linarith

/-- C10: the signal generator never emits both the golden-cross tag and the
death-cross tag in one output, since the former needs `ma50 > ma200` and the
latter `ma50 < ma200`. -/
theorem claim_C10 (price : ℚ) (ma20 ma50 ma200 ma50_prev ma200_prev : Option ℚ)
    (slopes : String × String × String) (stks : Bool × Bool) (sigs : List String)
    (h : calc_signals price ma20 ma50 ma200 ma50_prev ma200_prev slopes stks =
      Except.ok sigs) :
    ¬ ("MA50上穿MA200" ∈ sigs ∧ "MA50下穿MA200" ∈ sigs) := by
  obtain ⟨bull, bear⟩ := stks
  obtain ⟨s20, s50, s200⟩ := slopes
  rintro ⟨hg, hd⟩
  simp only [calc_signals] at h
  rcases e20 : near price ma20 with u | n20
  · rw [e20, exc_bind_error] at h
    exact Except.noConfusion h
  rw [e20, exc_bind_ok] at h
  rcases e50 : near price ma50 with u | n50
  · rw [e50, exc_bind_error] at h
    exact Except.noConfusion h
  rw [e50, exc_bind_ok] at h
  rcases momentum_block_ok h with rfl | rfl <;>
    simp [List.mem_append, mem_ite_singleton] at hg hd <;>
      exact cross_block_not_both _ _ _ _ ⟨hg, hd⟩

theorem claim_C10_witness :
    ¬ ("MA50上穿MA200" ∈ ([] : List String) ∧ "MA50下穿MA200" ∈ ([] : List String)) :=
  claim_C10 1 none none none none none ("flat", "flat", "flat") (false, false) [] rfl

/-- C6: with `ma50Prev = 99, ma200Prev = 100, ma50 = 101, ma200 = 100` (all
present), every signal list the generator produces contains the GoldenCross
tag and not the DeathCross tag. -/
theorem claim_C6 (price : ℚ) (ma20 : Option ℚ) (slopes : String × String × String)
    (stks : Bool × Bool) (sigs : List String)
    (h : calc_signals price ma20 (some 101) (some 100) (some 99) (some 100) slopes stks =
      Except.ok sigs) :
    "MA50上穿MA200" ∈ sigs ∧ "MA50下穿MA200" ∉ sigs := by
  obtain ⟨bull, bear⟩ := stks
  obtain ⟨s20, s50, s200⟩ := slopes
  simp only [calc_signals] at h
  rcases e20 : near price ma20 with u | n20
  · rw [e20, exc_bind_error] at h
    exact Except.noConfusion h
  rw [e20, exc_bind_ok] at h
  rcases e50 : near price (some 101) with u | n50
  · rw [e50, exc_bind_error] at h
    exact Except.noConfusion h
  rw [e50, exc_bind_ok] at h
  have hcross : cross_block (some 101) (some 100) (some 99) (some 100) = ["MA50上穿MA200"] := by
    decide
  rw [hcross] at h
  rcases momentum_block_ok h with rfl | rfl <;>
    constructor <;>
      simp [List.mem_append, mem_ite_singleton]

theorem claim_C6_witness :
    "MA50上穿MA200" ∈ ["跌破MA50", "回踩MA50", "MA50上穿MA200"] ∧
    "MA50下穿MA200" ∉ ["跌破MA50", "回踩MA50", "MA50上穿MA200"] :=
  claim_C6 100 none ("flat", "flat", "flat") (false, false) _
    (by norm_num [calc_signals, cross_block, momentum_block, near, pyDiv, above, below,
      NEAR_BAND, BREAK_BUF, exc_bind_ok, exc_pure])

/-- C4: the slope classifier returns flat when today's SMA is absent or the
series is shorter than `window + lookback`, or when the SMA of the series
truncated by the last `lookback` points is absent or zero; otherwise, with
`change = (maToday - maPrev) / maPrev`, it returns up iff `change > ε`,
down iff `change < -ε`, and flat otherwise (`ε = SLOPE_EPS = 0.001`). -/
theorem claim_C4 (values : List ℚ) (window lookback : ℕ) (hw : 0 < window) :
    ((sma values window = none ∨ values.length < window + lookback) →
        ma_slope values window lookback = "flat") ∧
    (∀ t, sma values window = some t → window + lookback ≤ values.length →
      ((sma (values.take (values.length - lookback)) window = none ∨
        sma (values.take (values.length - lookback)) window = some 0) →
          ma_slope values window lookback = "flat") ∧
      (∀ p, sma (values.take (values.length - lookback)) window = some p → p ≠ 0 →
        ma_slope values window lookback =
          (if (t - p) / p > SLOPE_EPS then "up"
           else if (t - p) / p < -SLOPE_EPS then "down" else "flat"))) := by
  constructor
  · rintro (hnone | hlt)
    · simp [ma_slope, hnone]
    · rcases e : sma values window with _ | t
      · simp [ma_slope, e]
      · simp [ma_slope, e, hlt]
  · intro t ht hlen
    have hnlt : ¬ (values.length < window + lookback) := by omega
    rcases Nat.eq_zero_or_pos lookback with hl | hl
    · subst hl
      have hpd0 : pyDropLast values 0 = [] := by simp [pyDropLast]
      have hprev_code : sma (pyDropLast values 0) window = none := by
        rw [hpd0]
        exact sma_none_of_short (by simpa using hw)
      have hflat : ma_slope values window 0 = "flat" := by
        simp [ma_slope, ht, hnlt, hprev_code]
      have hspec : values.take (values.length - 0) = values := by
        simp
      constructor
      · intro _
        exact hflat
      · intro p hp hp0
        rw [hspec, ht] at hp
        injection hp with he
        subst he
        rw [hflat, sub_self, zero_div]
        norm_num [SLOPE_EPS]
    · have hl0 : lookback ≠ 0 := by omega
      have hpd : pyDropLast values lookback = values.take (values.length - lookback) := by
        simp [pyDropLast, hl0]
      constructor
      · rintro (e | e)
        · simp [ma_slope, ht, hnlt, hpd, e]
        · simp [ma_slope, ht, hnlt, hpd, e]
      · intro p hp hp0
        simp [ma_slope, ht, hnlt, hpd, hp, hp0]

theorem claim_C4_witness :
    0 < 1 ∧
    ma_slope [1, 2] 1 1 =
      (if ((2 : ℚ) - 1) / 1 > SLOPE_EPS then "up"
       else if ((2 : ℚ) - 1) / 1 < -SLOPE_EPS then "down" else "flat") :=
  ⟨by decide,
    ((claim_C4 [1, 2] 1 1 (by decide)).2 2 (by norm_num [sma, pyLastSlice]) (by decide)).2 1
      (by norm_num [sma, pyLastSlice]) (by decide)⟩

theorem exc_ok_ite {α : Type} (P : Prop) [Decidable P] (a b : α) :
    (Except.ok (if P then a else b) : Exc α) = if P then Except.ok a else Except.ok b := by
  split <;> rfl

theorem stage_rule2_eval (price : ℚ) (ma50 : Option ℚ) (signals : List String)
    (h : ma50 ≠ some 0) :
    stage_rule2 price ma50 signals =
      Except.ok (ma50.any (fun m => decide (price ≥ m)) && nearSpec price ma50 &&
        decide ("站上MA50" ∈ signals)) := by
  rcases ma50 with _ | m50
  · rfl
  · have hm : m50 ≠ 0 := fun e => h (by rw [e])
    have hnear : near price (some m50) =
        Except.ok (decide (|price - m50| / m50 ≤ NEAR_BAND)) := by
      simp [near, pyDiv, hm]
    by_cases hp : price ≥ m50
    · simp [stage_rule2, nearSpec, hp, hnear, exc_bind_ok]
    · have hd : decide (price ≥ m50) = false := decide_eq_false hp
      simp only [stage_rule2, if_neg hp]
      show (pure false : Exc Bool) =
        Except.ok (decide (price ≥ m50) && nearSpec price (some m50) &&
          decide ("站上MA50" ∈ signals))
      rw [hd]
      rfl

theorem stage_rule5_eval (price : ℚ) (ma20 ma50 : Option ℚ) (slope20 : String)
    (h : ma50 ≠ some 0) :
    stage_rule5 price ma20 ma50 slope20 =
      Except.ok (spec_rule5 price ma20 ma50 slope20) := by
  rcases ma20 with _ | m20 <;> rcases ma50 with _ | m50
  · rfl
  · rfl
  · rfl
  · have hm : m50 ≠ 0 := fun e => h (by rw [e])
    have hdiv : pyDiv |price - m50| m50 = Except.ok (|price - m50| / m50) := by
      simp [pyDiv, hm]
    by_cases hg : price > m20 ∧ (slope20 = "up" ∨ slope20 = "flat")
    · simp [stage_rule5, spec_rule5, hg, hg.1, hg.2, hdiv, exc_bind_ok]
    · have hff : (decide (price > m20) && decide (slope20 = "up" ∨ slope20 = "flat")) = false := by
        by_cases h1 : price > m20
        · by_cases h2 : slope20 = "up" ∨ slope20 = "flat"
          · exact absurd ⟨h1, h2⟩ hg
          · simp [h2]
        · simp [h1]
      simp only [stage_rule5, if_neg hg]
      show (pure false : Exc Bool) =
        Except.ok (decide (price > m20) && decide (slope20 = "up" ∨ slope20 = "flat") &&
          decide (|price - m50| / m50 ≤ 2 / 100) && decide (price < m50 * (1 + BREAK_BUF)))
      rw [hff]
      rfl

theorem stage_rule6_eval (price : ℚ) (ma50 : Option ℚ) (h : ma50 ≠ some 0) :
    stage_rule6 price ma50 =
      Except.ok (ma50.any (fun m50 => decide (|price - m50| / m50 ≤ 2 / 100))) := by
  rcases ma50 with _ | m50
  · rfl
  · have hm : m50 ≠ 0 := fun e => h (by rw [e])
    simp [stage_rule6, pyDiv, hm, exc_bind_ok]

theorem calc_stage_eq_spec (price : ℚ) (ma20 ma50 ma200 : Option ℚ)
    (slopes : String × String × String) (stks : Bool × Bool) (signals : List String)
    (h : ma50 ≠ some 0) :
    calc_stage price ma20 ma50 ma200 slopes stks signals =
      Except.ok (stageSpec price ma20 ma50 ma200 slopes stks signals) := by
  obtain ⟨bull, bear⟩ := stks
  obtain ⟨s20, s50, s200⟩ := slopes
  unfold calc_stage stageSpec
  simp only [firstMatch, exc_ok_ite]
  rw [stage_rule2_eval price ma50 signals h, stage_rule5_eval price ma20 ma50 s20 h,
    stage_rule6_eval price ma50 h]
  simp only [exc_bind_ok, exc_ok_ite]

theorem firstMatch_mem_of (rules : List (Bool × String)) (d : String) (tgt : List String)
    (hr : ∀ s ∈ rules.map Prod.snd, s ∈ tgt) (hd : d ∈ tgt) :
    firstMatch rules d ∈ tgt := by
  induction rules with
  | nil => exact hd
  | cons r rest ih =>
    obtain ⟨c, l⟩ := r
    by_cases hc : c = true
    · rw [show firstMatch ((c, l) :: rest) d = l from by simp [firstMatch, hc]]
      exact hr l (by simp)
    · rw [show firstMatch ((c, l) :: rest) d = firstMatch rest d from by simp [firstMatch, hc]]
      exact ih fun s hs => hr s (by simp [hs])

theorem stageSpec_mem (price : ℚ) (ma20 ma50 ma200 : Option ℚ)
    (slopes : String × String × String) (stks : Bool × Bool) (signals : List String) :
    stageSpec price ma20 ma50 ma200 slopes stks signals ∈ nineStages := by
  obtain ⟨bull, bear⟩ := stks
  obtain ⟨s20, s50, s200⟩ := slopes
  unfold stageSpec
  apply firstMatch_mem_of
  · intro s hs
    simpa [nineStages] using hs
  · simp [nineStages]

/-- C2 (amended): provided `ma50` is not a present zero — the input on which
the counterexample shows the classifier raising instead of answering — the
stage classifier returns exactly one label, namely the first label of the
spec's ordered nine-rule table whose condition holds (defaulting to the
Consolidation label `"震荡"`), and that label is always one of the nine. -/
theorem claim_C2 (price : ℚ) (ma20 ma50 ma200 : Option ℚ)
    (slopes : String × String × String) (stks : Bool × Bool) (signals : List String)
    (h : ma50 ≠ some 0) :
    calc_stage price ma20 ma50 ma200 slopes stks signals =
      Except.ok (stageSpec price ma20 ma50 ma200 slopes stks signals) ∧
    stageSpec price ma20 ma50 ma200 slopes stks signals ∈ nineStages :=
  ⟨calc_stage_eq_spec price ma20 ma50 ma200 slopes stks signals h,
   stageSpec_mem price ma20 ma50 ma200 slopes stks signals⟩

theorem claim_C2_witness :
    (some (101 : ℚ) ≠ some 0) ∧
    (calc_stage 100 none (some 101) none ("flat", "flat", "flat") (false, false) [] =
      Except.ok (stageSpec 100 none (some 101) none ("flat", "flat", "flat") (false, false) []) ∧
     stageSpec 100 none (some 101) none ("flat", "flat", "flat") (false, false) [] ∈
       nineStages) :=
  ⟨by decide,
   claim_C2 100 none (some 101) none ("flat", "flat", "flat") (false, false) [] (by decide)⟩

end StockMA
